import Mathlib

/- Shallow embedding of src/app.py (ChatAnalyst), a Streamlit chat front-end
for a remotely hosted Vertex AI agent.  Dynamic Python dicts are modelled as
structures with optional fields; the outcomes of external calls (the
streaming query, session creation, JSON credential parsing, vertexai.init,
agent retrieval) are explicit inputs of the embedded functions. -/

namespace ChatAnalyst

/-- One element of the parts list inside an event: a dict that may or may
not carry a "text" field (app.py line 128). -/
structure Part where
  text : Option String
deriving Repr, DecidableEq

/-- The "content" value of an event: a dict that may or may not carry a
"parts" field (app.py line 126). -/
structure Content where
  parts : Option (List Part)
deriving Repr, DecidableEq

/-- One streamed event: a dict that may or may not carry a "content" field
(app.py line 126). -/
structure Event where
  content : Option Content
deriving Repr, DecidableEq

/-- Text fragments contributed by a single event, mirroring the guarded
nested access of app.py lines 126-130: the event is consulted only when it
has a content field with a parts field, and each part contributes its text
field when present. -/
def eventTexts (event : Event) : List String :=
  match event.content with
  | none => []
  | some content =>
    match content.parts with
    | none => []
    | some parts => parts.filterMap (fun part => part.text)

/-- The accumulated full_response_parts list after consuming a whole stream
of events (app.py lines 120-132): every text fragment encountered, in
arrival order. -/
def fullResponseParts (events : List Event) : List String :=
  events.flatMap eventTexts

/-- Python str.replace of the single-character pattern dollar by
backslash-dollar (app.py line 136): every occurrence of the dollar
character is replaced. -/
def escapeDollars (s : String) : String :=
  String.mk (s.data.flatMap (fun c => if c = '$' then ['\\', '$'] else [c]))

/-- The fixed fallback message substituted when no text parts were received
at all (app.py line 139). -/
def fallbackMessage : String :=
  "Sorry, I encountered an issue and couldn\x27t get a response. Please check the logs or try again."

/-- The definitive response computed on the success path of the handler
(app.py lines 134-139): join the fragments, escape dollar signs, and fall
back to the fixed message when the joined text is empty and no fragments
were received. -/
def finalResponse (events : List Event) : String :=
  let parts := fullResponseParts events
  let joined := String.join parts
  let escaped := escapeDollars joined
  if escaped = "" ∧ parts = [] then fallbackMessage else escaped

/-- A transcript entry (app.py line 96): a role/content pair. -/
structure Msg where
  role : String
  content : String
deriving Repr, DecidableEq

/-- The outcome of one streaming query: either the full list of events the
stream yielded, or the detail of the exception it raised. -/
inductive StreamOutcome where
  | ok (events : List Event)
  | err (detail : String)
deriving Repr, DecidableEq

/-- The assistant transcript content recorded on the failure path (app.py
line 148). -/
def errorContent (detail : String) : String :=
  "Error: Could not get a response. Details: " ++ detail

/-- The per-browser-session Streamlit state used by the handler: the
generated user identity, the server-issued session identity, and the
transcript (app.py lines 79-96). -/
structure SessionState where
  agent_user_id : Option String
  agent_session_id : Option String
  messages : List Msg
deriving Repr, DecidableEq

/-- The chat input handler (app.py lines 108-148): append the user entry,
then either append the assistant entry with the definitive response
(success) or append the assistant entry embedding the error detail and
surface an operator-visible error message (failure).  The second component
is the error surfaced via st.error, none on success. -/
def handlePrompt (s : SessionState) (prompt : String) (outcome : StreamOutcome) :
    SessionState × Option String :=
  let s := { s with messages := s.messages ++ [Msg.mk "user" prompt] }
  match outcome with
  | .ok events =>
    ({ s with messages := s.messages ++ [Msg.mk "assistant" (finalResponse events)] }, none)
  | .err detail =>
    ({ s with messages := s.messages ++ [Msg.mk "assistant" (errorContent detail)] },
      some ("Error querying agent: " ++ detail))

/-- A sequence of message exchanges in one browser session: each submitted
prompt is handled in turn by the chat input handler. -/
def runSession (s : SessionState) (exchanges : List (String × StreamOutcome)) : SessionState :=
  exchanges.foldl (fun st pr => (handlePrompt st pr.1 pr.2).1) s

/-- The assistant content recorded for one exchange, by outcome. -/
def assistantReply (outcome : StreamOutcome) : String :=
  match outcome with
  | .ok events => finalResponse events
  | .err detail => errorContent detail

/-- The two transcript entries one exchange appends. -/
def exchangeEntries (prompt : String) (outcome : StreamOutcome) : List Msg :=
  [Msg.mk "user" prompt, Msg.mk "assistant" (assistantReply outcome)]

/-- Transcript entries alternate user, assistant, starting with user. -/
def alternatingUA : List Msg → Bool
  | [] => true
  | _ :: [] => false
  | u :: a :: rest => (u.role == "user") && (a.role == "assistant") && alternatingUA rest

/-- The outcome of one agent.create_session call. -/
inductive CreateSessionOutcome where
  | ok (sessionId : String)
  | err (detail : String)
deriving Repr, DecidableEq

/-- The result of running the session-state initialization block: the
resulting state and whether the page render was halted via st.stop. -/
structure InitResult where
  state : SessionState
  halted : Bool
deriving Repr, DecidableEq

/-- The session-state initialization block (app.py lines 79-93): generate a
fresh user identity when absent; when the session identity is absent,
request a session from the agent, and on failure delete the user identity
and halt the page render.  freshUserId stands for the uuid generated for
this run; create stands for the outcome of the remote create_session
call. -/
def ensureIdentity (s : SessionState) (freshUserId : String)
    (create : CreateSessionOutcome) : InitResult :=
  let s :=
    match s.agent_user_id with
    | none => { s with agent_user_id := some freshUserId }
    | some _ => s
  match s.agent_session_id with
  | some _ => ⟨s, false⟩
  | none =>
    match create with
    | .ok sid => ⟨{ s with agent_session_id := some sid }, false⟩
    | .err _ => ⟨{ s with agent_user_id := none }, true⟩

/-- The st.secrets values the app reads (app.py lines 10-13 and 28-29),
each possibly absent. -/
structure Secrets where
  gcp_project_id : Option String
  gcp_location : Option String
  gcp_staging_bucket_name : Option String
  agent_resource_id : Option String
  gcp_service_account_credentials_json : Option String
deriving Repr, DecidableEq

/-- The four required configuration values once loaded. -/
structure Config where
  PROJECT_ID : String
  LOCATION : String
  STAGING_BUCKET_NAME : String
  AGENT_RESOURCE_ID : String
deriving Repr, DecidableEq

/-- Outcome of the configuration-loading try block: either all four
required values, or the first missing key (the KeyError raised by the
first absent lookup, app.py lines 9-14). -/
inductive ConfigResult where
  | ok (c : Config)
  | missingKey (key : String)
deriving Repr, DecidableEq

/-- The configuration-loading try block (app.py lines 9-16): the four
required settings are read in order and the first absent one raises
KeyError with that key. -/
def loadConfig (s : Secrets) : ConfigResult :=
  match s.gcp_project_id with
  | none => .missingKey "project_id"
  | some p =>
    match s.gcp_location with
    | none => .missingKey "location"
    | some l =>
      match s.gcp_staging_bucket_name with
      | none => .missingKey "staging_bucket_name"
      | some b =>
        match s.agent_resource_id with
        | none => .missingKey "resource_id"
        | some r => .ok ⟨p, l, b, r⟩

/-- The st.error message shown when configuration is missing (app.py line
15). -/
def startupError (key : String) : String :=
  "Missing configuration in st.secrets: \x27" ++ key ++ "\x27. Please check your .streamlit/secrets.toml"

/-- Result of the startup configuration phase: either halt (st.stop before
any agent initialization) showing an error, or proceed with the loaded
configuration. -/
inductive Startup where
  | halt (errorShown : String)
  | ready (c : Config)
deriving Repr, DecidableEq

/-- The startup configuration phase (app.py lines 9-16): a missing key
halts the page with the error naming it, before get_financial_agent is
ever reached. -/
def startupConfig (s : Secrets) : Startup :=
  match loadConfig s with
  | .missingKey k => .halt (startupError k)
  | .ok c => .ready c

/-- Lookup of a required setting by the key name used in the error
message. -/
def requiredSetting (s : Secrets) (key : String) : Option String :=
  if key = "project_id" then s.gcp_project_id
  else if key = "location" then s.gcp_location
  else if key = "staging_bucket_name" then s.gcp_staging_bucket_name
  else if key = "resource_id" then s.agent_resource_id
  else none

/-- An opaque parsed service-account credential object. -/
abbrev CredInfo := String

/-- The st.warning message shown when the embedded credential JSON fails to
parse (app.py line 43). -/
def parseWarning (detail : String) : String :=
  "Failed to parse service account JSON from secrets: " ++ detail ++
    ". Ensure it\x27s a valid JSON string. Falling back to default credentials."

/-- The credential-loading phase of get_financial_agent (app.py lines
23-46): when the optional JSON payload is present, parse it; on parse
failure emit a warning and leave creds unset.  parse stands for
json.loads composed with from_service_account_info, with error detail on
failure.  Returns the loaded credentials (if any) and the warning surfaced
(if any). -/
def loadCredentials (raw : Option String) (parse : String → Except String CredInfo) :
    Option CredInfo × Option String :=
  match raw with
  | none => (none, none)
  | some str =>
    match parse str with
    | .ok c => (some c, none)
    | .error e => (none, some (parseWarning e))

/-- How vertexai.init is invoked: with the explicitly loaded credentials,
or with ambient default credentials (app.py lines 50-55). -/
inductive InitMode where
  | withExplicitCreds (c : CredInfo)
  | ambient
deriving Repr, DecidableEq

/-- Result of get_financial_agent: the established mode, the retrieved
agent and any credential warning, or a fatal error (the re-raised
exception that makes the top-level handler st.stop). -/
inductive AgentStartup where
  | ok (mode : InitMode) (agentName : String) (warning : Option String)
  | fatal (errorShown : String)
deriving Repr, DecidableEq

/-- get_financial_agent (app.py lines 20-70): load optional credentials
(non-fatally), call vertexai.init with explicit credentials when loaded
and ambient ones otherwise, then retrieve the agent handle.  initOutcome
and getAgentOutcome stand for the outcomes of the two remote calls; either
failure re-raises and is fatal. -/
def get_financial_agent (raw : Option String) (parse : String → Except String CredInfo)
    (initOutcome : InitMode → Except String Unit) (getAgentOutcome : Except String String) :
    AgentStartup :=
  let cw := loadCredentials raw parse
  let mode := match cw.1 with
    | some c => InitMode.withExplicitCreds c
    | none => InitMode.ambient
  match initOutcome mode with
  | .error e => .fatal ("Failed during Vertex AI initialization: " ++ e)
  | .ok _ =>
    match getAgentOutcome with
    | .error e => .fatal ("Failed to get agent: " ++ e)
    | .ok name => .ok mode name cw.2

/- Helper lemmas shared by the claim theorems. -/

theorem escapeDollars_empty : escapeDollars "" = "" := rfl

theorem finalResponse_eq_ite (events : List Event) :
    finalResponse events =
      if escapeDollars (String.join (fullResponseParts events)) = "" ∧
          fullResponseParts events = []
      then fallbackMessage
      else escapeDollars (String.join (fullResponseParts events)) := rfl

theorem finalResponse_of_parts_ne_nil (events : List Event)
    (h : fullResponseParts events ≠ []) :
    finalResponse events = escapeDollars (String.join (fullResponseParts events)) := by
  rw [finalResponse_eq_ite, if_neg (fun hc => h hc.2)]

theorem handlePrompt_fst_messages (s : SessionState) (p : String) (o : StreamOutcome) :
    ((handlePrompt s p o).1).messages = s.messages ++ exchangeEntries p o := by
  cases o <;> simp [handlePrompt, exchangeEntries, assistantReply]

theorem handlePrompt_fst_ids (s : SessionState) (p : String) (o : StreamOutcome) :
    ((handlePrompt s p o).1).agent_user_id = s.agent_user_id ∧
    ((handlePrompt s p o).1).agent_session_id = s.agent_session_id := by
  cases o <;> simp [handlePrompt]

theorem runSession_messages (s : SessionState) (xs : List (String × StreamOutcome)) :
    (runSession s xs).messages =
      s.messages ++ xs.flatMap (fun pr => exchangeEntries pr.1 pr.2) := by
  induction xs generalizing s with
  | nil => simp [runSession]
  | cons hd tl ih =>
    have h1 : runSession s (hd :: tl) = runSession ((handlePrompt s hd.1 hd.2).1) tl := rfl
    rw [h1, ih, handlePrompt_fst_messages]
    simp

theorem alternatingUA_cons_cons (p r : String) (ms : List Msg) :
    alternatingUA (Msg.mk "user" p :: Msg.mk "assistant" r :: ms) = alternatingUA ms := by
  simp [alternatingUA]

theorem alternatingUA_flatMap_exchanges (xs : List (String × StreamOutcome)) :
    alternatingUA (xs.flatMap (fun pr => exchangeEntries pr.1 pr.2)) = true := by
  induction xs with
  | nil => rfl
  | cons hd tl ih =>
    rw [List.flatMap_cons, exchangeEntries]
    simp only [List.cons_append, List.nil_append]
    rw [alternatingUA_cons_cons, ih]

theorem length_flatMap_exchanges (xs : List (String × StreamOutcome)) :
    (xs.flatMap (fun pr => exchangeEntries pr.1 pr.2)).length = 2 * xs.length := by
  induction xs with
  | nil => rfl
  | cons hd tl ih =>
    rw [List.flatMap_cons, List.length_append, ih, exchangeEntries]
    simp only [List.length_cons, List.length_nil, List.length_cons]
    omega

/-- Claim C1: for every sequence of N message exchanges in one browser
session (each exchange a submitted prompt whose streaming query either
succeeds or raises), the transcript is exactly the concatenation of one
user entry followed by one assistant entry per exchange, has length 2N,
and alternates user, assistant starting with user. -/
theorem c1_transcript_after_n_exchanges (u sid : Option String)
    (xs : List (String × StreamOutcome)) :
    (runSession ⟨u, sid, []⟩ xs).messages =
        xs.flatMap (fun pr => exchangeEntries pr.1 pr.2) ∧
    (runSession ⟨u, sid, []⟩ xs).messages.length = 2 * xs.length ∧
    alternatingUA (runSession ⟨u, sid, []⟩ xs).messages = true := by
  have h := runSession_messages ⟨u, sid, []⟩ xs
  simp only [List.nil_append] at h
  refine ⟨h, ?_, ?_⟩
  · rw [h, length_flatMap_exchanges]
  · rw [h, alternatingUA_flatMap_exchanges]

/-- Claim C2, counterexample: for a stream carrying the single text
fragment consisting of a dollar sign, the definitive response is the
escaped string and differs from the plain concatenation of the
fragments. -/
theorem c2_counterexample :
    ¬ (finalResponse [Event.mk (some (Content.mk (some [Part.mk (some "$")])))] =
        String.join (fullResponseParts
          [Event.mk (some (Content.mk (some [Part.mk (some "$")])))])) := by
  decide

/-- Claim C2, amended: for every stream of events yielding at least one
text fragment, the definitive response equals the dollar-escaped
concatenation, in arrival order, of every text fragment found in the
events; it equals the plain concatenation whenever no dollar sign occurs,
as in the stream yielding fragments Hel then lo, whose definitive response
is Hello. -/
theorem c2_response_is_escaped_concat (events : List Event)
    (h : fullResponseParts events ≠ []) :
    finalResponse events = escapeDollars (String.join (fullResponseParts events)) :=
  finalResponse_of_parts_ne_nil events h

/-- Witness for C2: the stream yielding fragments Hel then lo satisfies
the hypothesis and records the definitive response Hello. -/
theorem c2_witness :
    fullResponseParts
        [Event.mk (some (Content.mk (some [Part.mk (some "Hel"), Part.mk (some "lo")])))] ≠ [] ∧
    finalResponse
        [Event.mk (some (Content.mk (some [Part.mk (some "Hel"), Part.mk (some "lo")])))] =
      escapeDollars (String.join (fullResponseParts
        [Event.mk (some (Content.mk (some [Part.mk (some "Hel"), Part.mk (some "lo")])))])) ∧
    finalResponse
        [Event.mk (some (Content.mk (some [Part.mk (some "Hel"), Part.mk (some "lo")])))] =
      "Hello" :=
  ⟨by decide,
   c2_response_is_escaped_concat
     [Event.mk (some (Content.mk (some [Part.mk (some "Hel"), Part.mk (some "lo")])))]
     (by decide),
   by decide⟩

/-- Claim C3: when the streaming query raises, the handler returns
normally (no propagation past the message-handling boundary), appends the
user entry and exactly one assistant entry embedding the error detail,
surfaces the error to the operator, and leaves the user and session
identities unchanged. -/
theorem c3_error_contained (s : SessionState) (prompt detail : String) :
    handlePrompt s prompt (.err detail) =
      ({ s with messages := s.messages ++
          [Msg.mk "user" prompt, Msg.mk "assistant" (errorContent detail)] },
        some ("Error querying agent: " ++ detail)) ∧
    (handlePrompt s prompt (.err detail)).1.agent_user_id = s.agent_user_id ∧
    (handlePrompt s prompt (.err detail)).1.agent_session_id = s.agent_session_id := by
  refine ⟨?_, ?_, ?_⟩ <;> simp [handlePrompt]

/-- Claim C4: when the stream produced zero fragments, the definitive
response is the fixed fallback message rather than the empty string, and
it is still appended as exactly one assistant entry. -/
theorem c4_zero_fragments_fallback (s : SessionState) (prompt : String) (events : List Event)
    (h : fullResponseParts events = []) :
    finalResponse events = fallbackMessage ∧ fallbackMessage ≠ "" ∧
    handlePrompt s prompt (.ok events) =
      ({ s with messages := s.messages ++
          [Msg.mk "user" prompt, Msg.mk "assistant" fallbackMessage] }, none) := by
  have hfr : finalResponse events = fallbackMessage := by
    rw [finalResponse_eq_ite, h]
    have hj : escapeDollars (String.join ([] : List String)) = "" := rfl
    simp [hj]
  refine ⟨hfr, by decide, ?_⟩
  simp [handlePrompt, hfr]

/-- Witness for C4: a stream of zero events produces zero fragments; the
handler appends the user entry and one assistant entry carrying the
fallback message. -/
theorem c4_witness :
    fullResponseParts [] = [] ∧
    (finalResponse [] = fallbackMessage ∧ fallbackMessage ≠ "" ∧
      handlePrompt ⟨some "u", some "s", []⟩ "hi" (.ok []) =
        ({ (⟨some "u", some "s", []⟩ : SessionState) with messages :=
            ([] : List Msg) ++ [Msg.mk "user" "hi", Msg.mk "assistant" fallbackMessage] },
          none)) :=
  ⟨rfl, c4_zero_fragments_fallback ⟨some "u", some "s", []⟩ "hi" [] rfl⟩

/-- Claim C5: on the success path, the content stored as the assistant
entry is the dollar-escaped concatenated text, so every literal dollar
sign in the concatenation is escaped before storage and display. -/
theorem c5_dollar_escaped_before_storage (s : SessionState) (prompt : String)
    (events : List Event) (h : fullResponseParts events ≠ []) :
    handlePrompt s prompt (.ok events) =
      ({ s with messages := s.messages ++
          [Msg.mk "user" prompt,
           Msg.mk "assistant" (escapeDollars (String.join (fullResponseParts events)))] },
        none) := by
  simp [handlePrompt, finalResponse_of_parts_ne_nil events h]

/-- Witness for C5: a stream whose single fragment contains a literal
dollar sign, as in a 50 dollar amount, is stored with the dollar sign
escaped by a backslash. -/
theorem c5_witness :
    fullResponseParts [Event.mk (some (Content.mk (some [Part.mk (some "You owe $50")])))] ≠ [] ∧
    handlePrompt ⟨some "u", some "s", []⟩ "how much"
        (.ok [Event.mk (some (Content.mk (some [Part.mk (some "You owe $50")])))]) =
      ({ (⟨some "u", some "s", []⟩ : SessionState) with messages :=
          ([] : List Msg) ++
            [Msg.mk "user" "how much",
             Msg.mk "assistant" (escapeDollars (String.join (fullResponseParts
               [Event.mk (some (Content.mk (some [Part.mk (some "You owe $50")])))])))] },
        none) ∧
    escapeDollars (String.join (fullResponseParts
        [Event.mk (some (Content.mk (some [Part.mk (some "You owe $50")])))])) =
      "You owe \\$50" :=
  ⟨by decide,
   c5_dollar_escaped_before_storage ⟨some "u", some "s", []⟩ "how much"
     [Event.mk (some (Content.mk (some [Part.mk (some "You owe $50")])))] (by decide),
   by decide⟩

/-- Claim C6: when session creation fails, the user identity generated for
that attempt is removed from session state and the page render halts, and
the next interaction assigns a fresh user identity. -/
theorem c6_failed_creation_discards_user_id (s : SessionState) (freshU detail : String)
    (h : s.agent_session_id = none) :
    (ensureIdentity s freshU (.err detail)).halted = true ∧
    (ensureIdentity s freshU (.err detail)).state.agent_user_id = none ∧
    ∀ freshU2 sid2,
      (ensureIdentity (ensureIdentity s freshU (.err detail)).state freshU2
          (.ok sid2)).state.agent_user_id = some freshU2 := by
  cases hu : s.agent_user_id <;> simp [ensureIdentity, h, hu]

/-- Witness for C6: starting from an empty session state, a failed
creation halts with the user identity removed, and a following attempt
assigns the new identity. -/
theorem c6_witness :
    (⟨none, none, []⟩ : SessionState).agent_session_id = none ∧
    (ensureIdentity ⟨none, none, []⟩ "u1" (.err "boom")).halted = true ∧
    (ensureIdentity ⟨none, none, []⟩ "u1" (.err "boom")).state.agent_user_id = none ∧
    (ensureIdentity (ensureIdentity ⟨none, none, []⟩ "u1" (.err "boom")).state "u2"
        (.ok "s2")).state.agent_user_id = some "u2" :=
  ⟨rfl,
   (c6_failed_creation_discards_user_id ⟨none, none, []⟩ "u1" "boom" rfl).1,
   (c6_failed_creation_discards_user_id ⟨none, none, []⟩ "u1" "boom" rfl).2.1,
   (c6_failed_creation_discards_user_id ⟨none, none, []⟩ "u1" "boom" rfl).2.2 "u2" "s2"⟩

/-- Claim C7: whenever any one of the four required settings is absent,
startup halts before agent initialization with the error message naming a
missing key, and that named setting is indeed absent. -/
theorem c7_missing_required_key_halts (s : Secrets)
    (h : s.gcp_project_id = none ∨ s.gcp_location = none ∨
         s.gcp_staging_bucket_name = none ∨ s.agent_resource_id = none) :
    ∃ key, startupConfig s = .halt (startupError key) ∧ requiredSetting s key = none := by
  rcases hp : s.gcp_project_id with _ | p
  · exact ⟨"project_id", by simp +decide [startupConfig, loadConfig, hp, requiredSetting]⟩
  · rcases hl : s.gcp_location with _ | l
    · exact ⟨"location", by simp +decide [startupConfig, loadConfig, hp, hl, requiredSetting]⟩
    · rcases hb : s.gcp_staging_bucket_name with _ | b
      · exact ⟨"staging_bucket_name",
          by simp +decide [startupConfig, loadConfig, hp, hl, hb, requiredSetting]⟩
      · rcases hr : s.agent_resource_id with _ | r
        · exact ⟨"resource_id",
            by simp +decide [startupConfig, loadConfig, hp, hl, hb, hr, requiredSetting]⟩
        · simp [hp, hl, hb, hr] at h

/-- Witness for C7: a secrets store missing only the location halts with
the error naming location. -/
theorem c7_witness :
    ((⟨some "p", none, some "b", some "r", none⟩ : Secrets).gcp_project_id = none ∨
     (⟨some "p", none, some "b", some "r", none⟩ : Secrets).gcp_location = none ∨
     (⟨some "p", none, some "b", some "r", none⟩ : Secrets).gcp_staging_bucket_name = none ∨
     (⟨some "p", none, some "b", some "r", none⟩ : Secrets).agent_resource_id = none) ∧
    ∃ key, startupConfig ⟨some "p", none, some "b", some "r", none⟩ =
        .halt (startupError key) ∧
      requiredSetting ⟨some "p", none, some "b", some "r", none⟩ key = none :=
  ⟨Or.inr (Or.inl rfl),
   c7_missing_required_key_halts ⟨some "p", none, some "b", some "r", none⟩
     (Or.inr (Or.inl rfl))⟩

/-- Claim C8: a failure to parse the embedded service-account credential
payload is non-fatal: the warning is surfaced, vertexai.init proceeds with
ambient credentials, and when the two remote calls succeed the agent
handle is still obtained. -/
theorem c8_credential_parse_failure_nonfatal (raw detail agentName : String)
    (parse : String → Except String CredInfo)
    (initOutcome : InitMode → Except String Unit)
    (hp : parse raw = .error detail)
    (hi : initOutcome .ambient = .ok ()) :
    get_financial_agent (some raw) parse initOutcome (.ok agentName) =
      .ok .ambient agentName (some (parseWarning detail)) := by
  simp [get_financial_agent, loadCredentials, hp, hi]

/-- Witness for C8: a concrete always-failing parser together with a
succeeding initialization and agent retrieval yields the agent under
ambient credentials with the parse warning. -/
theorem c8_witness :
    (fun _ : String => (Except.error "bad json" : Except String CredInfo)) "x" =
        .error "bad json" ∧
    (fun _ : InitMode => (Except.ok () : Except String Unit)) InitMode.ambient = .ok () ∧
    get_financial_agent (some "x")
        (fun _ => (Except.error "bad json" : Except String CredInfo))
        (fun _ => (Except.ok () : Except String Unit)) (.ok "agent0") =
      .ok .ambient "agent0" (some (parseWarning "bad json")) :=
  ⟨rfl, rfl,
   c8_credential_parse_failure_nonfatal "x" "bad json" "agent0"
     (fun _ => Except.error "bad json") (fun _ => Except.ok ()) rfl rfl⟩

/-- Claim C9: when the stream yields at least one fragment but the
fragments concatenate to the empty string, the fallback is not
substituted: the definitive response, and the assistant entry content, is
the empty string. -/
theorem c9_empty_fragments_no_fallback (s : SessionState) (prompt : String)
    (events : List Event) (hne : fullResponseParts events ≠ [])
    (hj : String.join (fullResponseParts events) = "") :
    finalResponse events = "" ∧
    handlePrompt s prompt (.ok events) =
      ({ s with messages := s.messages ++
          [Msg.mk "user" prompt, Msg.mk "assistant" ""] }, none) := by
  have hfr : finalResponse events = "" := by
    rw [finalResponse_of_parts_ne_nil events hne, hj, escapeDollars_empty]
  exact ⟨hfr, by simp [handlePrompt, hfr]⟩

/-- Witness for C9: a stream whose single event carries one empty text
fragment leads to an empty assistant entry rather than the fallback. -/
theorem c9_witness :
    fullResponseParts [Event.mk (some (Content.mk (some [Part.mk (some "")])))] ≠ [] ∧
    String.join (fullResponseParts
        [Event.mk (some (Content.mk (some [Part.mk (some "")])))]) = "" ∧
    (finalResponse [Event.mk (some (Content.mk (some [Part.mk (some "")])))] = "" ∧
      handlePrompt ⟨some "u", some "s", []⟩ "hi"
          (.ok [Event.mk (some (Content.mk (some [Part.mk (some "")])))]) =
        ({ (⟨some "u", some "s", []⟩ : SessionState) with messages :=
            ([] : List Msg) ++ [Msg.mk "user" "hi", Msg.mk "assistant" ""] }, none)) :=
  ⟨by decide, by decide,
   c9_empty_fragments_no_fallback ⟨some "u", some "s", []⟩ "hi"
     [Event.mk (some (Content.mk (some [Part.mk (some "")])))] (by decide) (by decide)⟩

/-- Claim C10: on the failure path the assistant entry embeds the error
detail verbatim with no dollar-escaping applied, so a literal dollar sign
inside the detail reaches the transcript unescaped, as escaping would have
changed it. -/
theorem c10_error_detail_unescaped (s : SessionState) (prompt detail : String) :
    (handlePrompt s prompt (.err detail)).1.messages =
      s.messages ++ [Msg.mk "user" prompt, Msg.mk "assistant" (errorContent detail)] ∧
    errorContent "$50" ≠ escapeDollars (errorContent "$50") := by
  refine ⟨by simp [handlePrompt], by decide⟩

end ChatAnalyst
